import Mathlib

/-!
Verification development for the debAIDe debate-practice client.

The TypeScript frontend is shallowly embedded: zustand stores become pure
state-transformer functions, and the polling screens (battle room,
battle lobby) become explicit step functions over a state record, driven
by an event alphabet (poll ticks carrying the fetch outcome, timer
callbacks, button presses, unmount).  Ticks are modelled atomically: a
tick event carries the outcome of the fetch it started, and its response
handler runs in the same step.  Navigating away from a screen (router
replace) unmounts it, which runs the effect cleanups (clearing the
interval timers and the mounted flag), exactly as in the source.
-/

/-- Outcome of a fetch call as discriminated by the client code:
an OK response carrying parsed JSON, a non-OK HTTP response, or a
thrown error (network failure). -/
inductive FetchResult (α : Type) : Type
  | ok (data : α)
  | httpError
  | netError
deriving DecidableEq

/-! ### Theme store (src/unnamed/part_004, `useThemeStore`) -/

/-- Theme palette record, from the `lightTheme` / `darkTheme` objects. -/
structure Theme where
  background : String
  surface : String
  primary : String
  primaryDark : String
  text : String
  textSecondary : String
  border : String
  error : String
  success : String
  warning : String
  disabled : String
deriving DecidableEq

/-- The `lightTheme` constant. -/
def lightTheme : Theme :=
  { background := "#f9fafb", surface := "#ffffff", primary := "#6366f1",
    primaryDark := "#4f46e5", text := "#111827", textSecondary := "#6b7280",
    border := "#e5e7eb", error := "#ef4444", success := "#10b981",
    warning := "#fbbf24", disabled := "#d1d5db" }

/-- The `darkTheme` constant. -/
def darkTheme : Theme :=
  { background := "#111827", surface := "#1f2937", primary := "#818cf8",
    primaryDark := "#6366f1", text := "#f9fafb", textSecondary := "#9ca3af",
    border := "#374151", error := "#f87171", success := "#34d399",
    warning := "#fbbf24", disabled := "#4b5563" }

/-- The data part of the zustand `ThemeState`. -/
structure ThemeState where
  isDark : Bool
  theme : Theme
deriving DecidableEq

/-- Initial store state: `isDark: false, theme: lightTheme`. -/
def initialThemeState : ThemeState :=
  { isDark := false, theme := lightTheme }

/-- The store's `toggleTheme` action:
`set(state => ({ isDark: !state.isDark, theme: !state.isDark ? darkTheme : lightTheme }))`. -/
def toggleTheme (s : ThemeState) : ThemeState :=
  { isDark := !s.isDark, theme := if !s.isDark then darkTheme else lightTheme }

/-- The store's `setTheme` action:
`set({ isDark, theme: isDark ? darkTheme : lightTheme })`. -/
def setTheme (isDark : Bool) (_s : ThemeState) : ThemeState :=
  { isDark := isDark, theme := if isDark then darkTheme else lightTheme }

/-- The implicit store invariant relating the cached palette to the flag. -/
def themeInvariant (s : ThemeState) : Prop :=
  s.theme = if s.isDark then darkTheme else lightTheme

/-! ### Auth store (src/frontend/lib/authStore.ts, `useAuthStore`) -/

/-- The `User` record returned by the backend. -/
structure AuthUser where
  id : String
  username : String
  email : String
deriving DecidableEq

/-- Client-side auth state: the AsyncStorage slot under key `auth_token`
together with the in-memory zustand fields `token`, `user`, `isLoading`. -/
structure AuthState where
  storageToken : Option String
  token : Option String
  user : Option AuthUser
  isLoading : Bool
deriving DecidableEq

/-- What the auth endpoints (`/auth/login`, `/auth/register`) answer:
an OK response carrying `access_token` and `user`, a non-OK response, or a
thrown network error. -/
inductive AuthResult : Type
  | ok (access_token : String) (user : AuthUser)
  | httpError
  | netError
deriving DecidableEq

/-- Whether an auth action returned normally or threw. -/
inductive AuthOutcome : Type
  | success
  | threw
deriving DecidableEq

/-- The store's `login` action.  On OK: persist `data.access_token` to
AsyncStorage and `set(\x7b token, user \x7d)`.  On a non-OK response or a
network error the function throws (the outer catch re-throws), touching
neither storage nor the store. -/
def login (s : AuthState) (resp : AuthResult) : AuthState × AuthOutcome :=
  match resp with
  | .ok tok u =>
      ({ s with storageToken := some tok, token := some tok, user := some u },
       .success)
  | .httpError => (s, .threw)
  | .netError => (s, .threw)

/-- The store's `register` action; identical control flow to `login`. -/
def register (s : AuthState) (resp : AuthResult) : AuthState × AuthOutcome :=
  match resp with
  | .ok tok u =>
      ({ s with storageToken := some tok, token := some tok, user := some u },
       .success)
  | .httpError => (s, .threw)
  | .netError => (s, .threw)

/-- The store's `loadToken` action.  If a token is persisted it is verified
against `/auth/me` (`meResp` is that call's outcome): on OK the token and
user enter the store; on a non-OK response the token is removed from
storage and the store cleared; on a thrown network error the catch only
does `set(\x7b isLoading: false \x7d)`.  With no persisted token only
`isLoading` is cleared. -/
def loadToken (s : AuthState) (meResp : FetchResult AuthUser) : AuthState :=
  match s.storageToken with
  | some tok =>
      match meResp with
      | .ok u => { s with token := some tok, user := some u, isLoading := false }
      | .httpError =>
          { storageToken := none, token := none, user := none, isLoading := false }
      | .netError => { s with isLoading := false }
  | none => { s with isLoading := false }

/-! ### Register screen validation (src/unnamed/part_006, `handleRegister`) -/

/-- A character admitted by the character class of the email check,
i.e. anything that is neither whitespace nor an at sign. -/
def isEmailChar (c : Char) : Bool :=
  !c.isWhitespace && c != '@'

/-- The email format check `emailRegex.test(email)` for the anchored
pattern "one or more non-space non-at characters, an at sign, one or more
non-space non-at characters, a dot, one or more non-space non-at
characters".  Equivalently: everything up to the first at sign is a
non-empty run of admitted characters, the remainder after that at sign is
a non-empty run of admitted characters, and that remainder contains a dot
that is neither its first nor its last character. -/
def emailRegexTest (email : String) : Bool :=
  let cs := email.toList
  let localPart := cs.takeWhile (fun c => c != '@')
  match cs.dropWhile (fun c => c != '@') with
  | [] => false
  | _ :: domainPart =>
      !localPart.isEmpty && localPart.all isEmailChar &&
      !domainPart.isEmpty && domainPart.all isEmailChar &&
      ((domainPart.drop 1).dropLast.contains '.')

/-- The four text inputs of the register screen. -/
structure RegisterForm where
  username : String
  email : String
  password : String
  confirmPassword : String
deriving DecidableEq

/-- What `handleRegister` does with the form: surface an alert (and issue
no network request), or call `register(username, email, password)`,
which issues the POST to the auth endpoint. -/
inductive RegisterAction : Type
  | alertError (message : String)
  | submit (username : String) (email : String) (password : String)
deriving DecidableEq

/-- The validation chain of `handleRegister`, in source order: blank
fields (via `trim`), password mismatch, password shorter than 6,
email format; only a form passing all four reaches `register`. -/
def handleRegister (f : RegisterForm) : RegisterAction :=
  if f.username.trim = "" || f.email.trim = "" || f.password.trim = "" then
    .alertError "Please fill in all fields"
  else if f.password != f.confirmPassword then
    .alertError "Passwords do not match"
  else if f.password.length < 6 then
    .alertError "Password must be at least 6 characters"
  else if !emailRegexTest f.email then
    .alertError "Please enter a valid email address"
  else
    .submit f.username f.email f.password

/-! ### Battle room data model (src/unnamed/part_002) -/

/-- The three debate segment kinds. -/
inductive SegmentKind : Type
  | opening
  | rebuttal
  | closing
deriving DecidableEq

/-- A player's per-kind submission record
(`segments: Record<SegmentKind, boolean>`). -/
structure SegmentRecord where
  opening : Bool
  rebuttal : Bool
  closing : Bool
deriving DecidableEq

/-- A player entry of the `/battle/id/status` payload. -/
structure PlayerInfo where
  id : String
  username : String
  stance : String
  segments : SegmentRecord
deriving DecidableEq

/-- The topic entry of the status payload. -/
structure TopicInfo where
  id : Nat
  title : String
  description : String
deriving DecidableEq

/-- The `/battle/id/status` response (`BattleStatus` in the source).
The judgment payload is opaque to the client logic modelled here (it is
only null-checked and forwarded), so it is kept as an optional blob. -/
structure BattleStatusData where
  battle_id : String
  status : String
  current_turn : String
  current_segment : SegmentKind
  topic : TopicInfo
  player1 : PlayerInfo
  player2 : Option PlayerInfo
  is_your_turn : Bool
  winner_id : Option String
  judgment : Option String
deriving DecidableEq

/-- One entry of the `/battle/id/segments` response (`SegmentData`). -/
structure SegmentData where
  kind : SegmentKind
  transcript : String
  player_id : String
deriving DecidableEq

/-- The render-time selection
`const mySegments = isPlayer1 ? battleStatus.player1.segments : (battleStatus.player2?.segments || ...)`;
the empty-object fallback (no keys, so no submitted values) is `none`. -/
def mySegments (st : BattleStatusData) (currentUserId : String) : Option SegmentRecord :=
  if currentUserId = st.player1.id then some st.player1.segments
  else st.player2.map PlayerInfo.segments

/-- The render-time selection of the opposing player's record, with the
same empty-object fallback for a missing player2. -/
def opponentSegments (st : BattleStatusData) (currentUserId : String) : Option SegmentRecord :=
  if currentUserId = st.player1.id then st.player2.map PlayerInfo.segments
  else some st.player1.segments

/-- `Object.values` of a (possibly empty-object) segment record. -/
def segValues : Option SegmentRecord → List Bool
  | none => []
  | some r => [r.opening, r.rebuttal, r.closing]

/-- The guard `allSegmentsComplete`:
both value lists, filtered to the truthy entries, have length 3. -/
def allSegmentsComplete (st : BattleStatusData) (currentUserId : String) : Bool :=
  ((segValues (mySegments st currentUserId)).filter id).length == 3 &&
  ((segValues (opponentSegments st currentUserId)).filter id).length == 3

/-- The Request AI Judgment button is rendered exactly under
`allSegmentsComplete`. -/
def judgeButtonRendered (st : BattleStatusData) (currentUserId : String) : Bool :=
  allSegmentsComplete st currentUserId

/-- The segment input card is rendered exactly under
`!allSegmentsComplete`. -/
def inputCardRendered (st : BattleStatusData) (currentUserId : String) : Bool :=
  !allSegmentsComplete st currentUserId

/-- All three kinds marked submitted in one record. -/
def allTrue (r : SegmentRecord) : Prop :=
  r.opening = true ∧ r.rebuttal = true ∧ r.closing = true

/-! ### Battle room polling machine (src/unnamed/part_002, `BattleRoomScreen`) -/

/-- Interval of the battle-status poll, in milliseconds
(`setInterval(fetchBattleStatus, 2000)`). -/
def statusPollIntervalMs : Nat := 2000

/-- Interval of the opponent-segments poll, in milliseconds
(`setInterval(fetchOpponentSegments, 3000)`). -/
def segmentsPollIntervalMs : Nat := 3000

/-- Delay of the scheduled results navigation, in milliseconds
(`setTimeout(..., 100)` inside `fetchBattleStatus`). -/
def navTimeoutDelayMs : Nat := 100

/-- The filter applied by `fetchOpponentSegments` before storing:
`segments.filter(seg => seg.player_id !== currentUserId)`. -/
def opponentSegs (currentUserId : String) (segments : List SegmentData) : List SegmentData :=
  segments.filter (fun seg => seg.player_id != currentUserId)

/-- State of one mounted `BattleRoomScreen` instance.  `mounted` is the
`isMounted` ref, the two interval flags say whether the corresponding
`setInterval` timer is live, `pendingNavs` counts scheduled
not-yet-fired navigation timeouts, `navigations` counts performed
`router.replace` calls to the results screen, and `judgeRequests` counts
issued POST `/battle/id/judge` requests. -/
structure RoomState where
  mounted : Bool
  statusIntervalActive : Bool
  segmentsIntervalActive : Bool
  battleStatus : Option BattleStatusData
  opponentTranscripts : List SegmentData
  isJudging : Bool
  loading : Bool
  pendingNavs : Nat
  navigations : Nat
  judgeRequests : Nat
deriving DecidableEq

/-- Events of the battle-room screen: a status-poll tick with the fetch
outcome it handled, a segments-poll tick, the firing of a scheduled
navigation timeout, the user pressing the judge button, the completion of
an in-flight judge request, and teardown of the screen. -/
inductive RoomEvent : Type
  | statusTick (resp : FetchResult BattleStatusData)
  | segmentsTick (resp : FetchResult (List SegmentData))
  | navTimeout
  | pressJudge
  | judgeResponse (resp : FetchResult Unit)
  | unmount
deriving DecidableEq

/-- Whether the judge button can currently be pressed: the screen is
mounted and past its loading gate, a status is stored, the button is
rendered (`allSegmentsComplete`), and it is not disabled (`isJudging`). -/
def judgePressable (currentUserId : String) (s : RoomState) : Bool :=
  s.mounted && !s.loading &&
  (match s.battleStatus with
   | some st => judgeButtonRendered st currentUserId
   | none => false) &&
  !s.isJudging

/-- One step of the battle-room screen.

  * `statusTick` (`fetchBattleStatus`): only a live interval ticks.  On OK
    the payload is stored and the segments-poll effect re-runs, leaving
    its interval live exactly when the new status is `in_progress`; if the
    payload shows `completed` with a non-null judgment and the mounted
    flag is set, a navigation timeout is scheduled.  On a non-OK response
    nothing happens, on a thrown error the failure is only logged; both
    paths run the `finally` that clears `loading`.
  * `segmentsTick` (`fetchOpponentSegments`): on OK the list, filtered to
    the opponent's segments, replaces the stored transcripts; otherwise
    the failure is only logged.
  * `navTimeout`: a scheduled timeout fires; if the mounted flag is still
    set it performs `router.replace` to the results screen, which
    unmounts this screen and so runs the cleanups (intervals cleared,
    mounted flag dropped).
  * `pressJudge` / `judgeResponse` (`requestJudgment`): a press on the
    enabled button sets `isJudging` and issues the POST; the response
    handler (alert only) runs the `finally` that clears `isJudging`.
  * `unmount`: the effect cleanups clear both intervals and the mounted
    flag. -/
def stepRoom (currentUserId : String) (s : RoomState) : RoomEvent → RoomState
  | .statusTick resp =>
      if s.statusIntervalActive then
        match resp with
        | .ok data =>
            { s with
              battleStatus := some data,
              loading := false,
              segmentsIntervalActive := data.status == "in_progress",
              pendingNavs :=
                if data.status == "completed" && data.judgment.isSome && s.mounted
                then s.pendingNavs + 1 else s.pendingNavs }
        | .httpError => { s with loading := false }
        | .netError => { s with loading := false }
      else s
  | .segmentsTick resp =>
      if s.segmentsIntervalActive then
        match resp with
        | .ok segments =>
            { s with opponentTranscripts := opponentSegs currentUserId segments }
        | .httpError => s
        | .netError => s
      else s
  | .navTimeout =>
      if s.pendingNavs > 0 then
        if s.mounted then
          { s with
            pendingNavs := s.pendingNavs - 1,
            navigations := s.navigations + 1,
            mounted := false,
            statusIntervalActive := false,
            segmentsIntervalActive := false }
        else { s with pendingNavs := s.pendingNavs - 1 }
      else s
  | .pressJudge =>
      if judgePressable currentUserId s then
        { s with isJudging := true, judgeRequests := s.judgeRequests + 1 }
      else s
  | .judgeResponse _ =>
      if s.isJudging then { s with isJudging := false } else s
  | .unmount =>
      { s with
        mounted := false,
        statusIntervalActive := false,
        segmentsIntervalActive := false }

/-- Screen state right after mount: the mounted flag is set, the status
effect has started its interval, the segments effect sees a null
`battleStatus` and starts none, and the loading gate is up. -/
def initialRoomState : RoomState :=
  { mounted := true,
    statusIntervalActive := true,
    segmentsIntervalActive := false,
    battleStatus := none,
    opponentTranscripts := [],
    isJudging := false,
    loading := true,
    pendingNavs := 0,
    navigations := 0,
    judgeRequests := 0 }

/-- Run the screen from mount through a list of events. -/
def runRoom (currentUserId : String) (events : List RoomEvent) : RoomState :=
  events.foldl (stepRoom currentUserId) initialRoomState

/-! ### Battle lobby polling machine (src/unnamed/part_000, `BattleLobbyScreen`) -/

/-- Interval of the lobby's available-battles poll, in milliseconds
(`setInterval(() => loadBattles(), 3000)`). -/
def lobbyPollIntervalMs : Nat := 3000

/-- One entry of the `/battle/available` response. -/
structure BattleListing where
  battle_id : String
  topicTitle : String
  topicDifficulty : String
  player1Username : String
  player1Stance : String
  created_at : String
deriving DecidableEq

/-- State of one mounted `BattleLobbyScreen` instance (the fields the
battles poll touches). -/
structure LobbyState where
  mounted : Bool
  pollIntervalActive : Bool
  battles : List BattleListing
  isLoading : Bool
deriving DecidableEq

/-- Events of the lobby screen: a battles-poll tick with its fetch
outcome, and teardown. -/
inductive LobbyEvent : Type
  | tick (resp : FetchResult (List BattleListing))
  | unmount
deriving DecidableEq

/-- One step of the lobby screen.  `loadBattles` stores the list on OK,
does nothing on a non-OK response, logs on a thrown error, and in all
cases runs the `finally` clearing `isLoading`; the effect cleanup clears
the interval on unmount. -/
def stepLobby (s : LobbyState) : LobbyEvent → LobbyState
  | .tick resp =>
      if s.pollIntervalActive then
        match resp with
        | .ok data => { s with battles := data, isLoading := false }
        | .httpError => { s with isLoading := false }
        | .netError => { s with isLoading := false }
      else s
  | .unmount => { s with mounted := false, pollIntervalActive := false }

/-- Lobby state right after mount with a token present: the poll interval
is live. -/
def initialLobbyState : LobbyState :=
  { mounted := true, pollIntervalActive := true, battles := [], isLoading := true }

/-- Run the lobby from mount through a list of events. -/
def runLobby (events : List LobbyEvent) : LobbyState :=
  events.foldl stepLobby initialLobbyState

/-! ### Sample payloads used in concrete runs -/

/-- A sample topic payload. -/
def sampleTopic : TopicInfo :=
  { id := 1, title := "AI in schools", description := "Debate it" }

/-- All three kinds submitted. -/
def allDone : SegmentRecord :=
  { opening := true, rebuttal := true, closing := true }

/-- No kind submitted. -/
def noneDone : SegmentRecord :=
  { opening := false, rebuttal := false, closing := false }

/-- Player one in the sample battle. -/
def player1Sample : PlayerInfo :=
  { id := "u1", username := "alice", stance := "pro", segments := allDone }

/-- Player two in the sample battle. -/
def player2Sample : PlayerInfo :=
  { id := "u2", username := "bob", stance := "con", segments := allDone }

/-- A status payload for a battle still waiting for an opponent. -/
def openStatus : BattleStatusData :=
  { battle_id := "b1", status := "open", current_turn := "u1",
    current_segment := .opening, topic := sampleTopic,
    player1 := { player1Sample with segments := noneDone }, player2 := none,
    is_your_turn := true, winner_id := none, judgment := none }

/-- A status payload for a running battle in which both players have
submitted all three segments (ready to judge, not yet judged). -/
def readyStatus : BattleStatusData :=
  { battle_id := "b1", status := "in_progress", current_turn := "u1",
    current_segment := .closing, topic := sampleTopic,
    player1 := player1Sample, player2 := some player2Sample,
    is_your_turn := false, winner_id := none, judgment := none }

/-- A status payload for a completed battle carrying a judgment. -/
def completedStatus : BattleStatusData :=
  { readyStatus with
    status := "completed"
    winner_id := some "u1"
    judgment := some "verdict" }

/-! ### Step equations for the polling machines -/

theorem stepRoom_statusTick_ok (uid : String) (s : RoomState) (data : BattleStatusData)
    (hact : s.statusIntervalActive = true) :
    stepRoom uid s (.statusTick (.ok data)) =
      { s with
        battleStatus := some data
        loading := false
        segmentsIntervalActive := data.status == "in_progress"
        pendingNavs :=
          if data.status == "completed" && data.judgment.isSome && s.mounted
          then s.pendingNavs + 1 else s.pendingNavs } := by
  simp [stepRoom, hact]

theorem stepRoom_statusTick_fail (uid : String) (s : RoomState)
    (hact : s.statusIntervalActive = true) :
    stepRoom uid s (.statusTick .httpError) = { s with loading := false } ∧
    stepRoom uid s (.statusTick .netError) = { s with loading := false } := by
  constructor <;> simp [stepRoom, hact]

theorem stepRoom_statusTick_inactive (uid : String) (s : RoomState)
    (hact : s.statusIntervalActive = false) (resp : FetchResult BattleStatusData) :
    stepRoom uid s (.statusTick resp) = s := by
  cases resp <;> simp [stepRoom, hact]

theorem stepRoom_segmentsTick_ok (uid : String) (s : RoomState) (segments : List SegmentData)
    (hact : s.segmentsIntervalActive = true) :
    stepRoom uid s (.segmentsTick (.ok segments)) =
      { s with opponentTranscripts := opponentSegs uid segments } := by
  simp [stepRoom, hact]

theorem stepRoom_segmentsTick_fail (uid : String) (s : RoomState)
    (hact : s.segmentsIntervalActive = true) :
    stepRoom uid s (.segmentsTick .httpError) = s ∧
    stepRoom uid s (.segmentsTick .netError) = s := by
  constructor <;> simp [stepRoom, hact]

theorem stepRoom_segmentsTick_inactive (uid : String) (s : RoomState)
    (hact : s.segmentsIntervalActive = false) (resp : FetchResult (List SegmentData)) :
    stepRoom uid s (.segmentsTick resp) = s := by
  cases resp <;> simp [stepRoom, hact]

theorem stepRoom_navTimeout_mounted (uid : String) (s : RoomState)
    (hp : 0 < s.pendingNavs) (hm : s.mounted = true) :
    stepRoom uid s .navTimeout =
      { s with
        pendingNavs := s.pendingNavs - 1
        navigations := s.navigations + 1
        mounted := false
        statusIntervalActive := false
        segmentsIntervalActive := false } := by
  simp [stepRoom, hp, hm]

theorem stepRoom_navTimeout_unmounted (uid : String) (s : RoomState)
    (hp : 0 < s.pendingNavs) (hm : s.mounted = false) :
    stepRoom uid s .navTimeout = { s with pendingNavs := s.pendingNavs - 1 } := by
  simp [stepRoom, hp, hm]

theorem stepRoom_navTimeout_none (uid : String) (s : RoomState)
    (hp : s.pendingNavs = 0) :
    stepRoom uid s .navTimeout = s := by
  simp [stepRoom, hp]

theorem stepRoom_pressJudge_enabled (uid : String) (s : RoomState)
    (hpj : judgePressable uid s = true) :
    stepRoom uid s .pressJudge =
      { s with isJudging := true, judgeRequests := s.judgeRequests + 1 } := by
  simp [stepRoom, hpj]

theorem stepRoom_pressJudge_disabled (uid : String) (s : RoomState)
    (hpj : judgePressable uid s = false) :
    stepRoom uid s .pressJudge = s := by
  simp [stepRoom, hpj]

theorem stepRoom_judgeResponse (uid : String) (s : RoomState) (resp : FetchResult Unit) :
    stepRoom uid s (.judgeResponse resp) =
      (if s.isJudging then { s with isJudging := false } else s) := rfl

theorem stepRoom_unmount (uid : String) (s : RoomState) :
    stepRoom uid s .unmount =
      { s with
        mounted := false
        statusIntervalActive := false
        segmentsIntervalActive := false } := rfl

theorem stepLobby_tick_ok (s : LobbyState) (data : List BattleListing)
    (hact : s.pollIntervalActive = true) :
    stepLobby s (.tick (.ok data)) = { s with battles := data, isLoading := false } := by
  simp [stepLobby, hact]

theorem stepLobby_tick_fail (s : LobbyState) (hact : s.pollIntervalActive = true) :
    stepLobby s (.tick .httpError) = { s with isLoading := false } ∧
    stepLobby s (.tick .netError) = { s with isLoading := false } := by
  constructor <;> simp [stepLobby, hact]

theorem stepLobby_tick_inactive (s : LobbyState)
    (hact : s.pollIntervalActive = false) (resp : FetchResult (List BattleListing)) :
    stepLobby s (.tick resp) = s := by
  cases resp <;> simp [stepLobby, hact]

theorem stepLobby_unmount (s : LobbyState) :
    stepLobby s .unmount = { s with mounted := false, pollIntervalActive := false } := rfl

/-! ### Invariants of the polling machines -/

/-- Invariant of the battle-room machine: the status interval is live
exactly while the screen is mounted; the segments interval is live only
while mounted with a stored `in_progress` status; no navigation has
happened while still mounted; at most one navigation ever happens; and
the stored transcripts never contain the current user's own segments. -/
def RoomInv (uid : String) (s : RoomState) : Prop :=
  s.statusIntervalActive = s.mounted ∧
  (s.segmentsIntervalActive = true →
    s.mounted = true ∧ ∃ st, s.battleStatus = some st ∧ st.status = "in_progress") ∧
  (s.mounted = true → s.navigations = 0) ∧
  s.navigations ≤ 1 ∧
  (∀ seg ∈ s.opponentTranscripts, seg.player_id ≠ uid)

theorem roomInv_init (uid : String) : RoomInv uid initialRoomState := by
  refine ⟨rfl, ?_, ?_, ?_, ?_⟩ <;> simp [initialRoomState]

theorem roomInv_step (uid : String) (s : RoomState) (e : RoomEvent)
    (h : RoomInv uid s) : RoomInv uid (stepRoom uid s e) := by
  obtain ⟨h1, h2, h3, h4, h5⟩ := h
  cases e with
  | statusTick resp =>
      cases hact : s.statusIntervalActive with
      | false =>
          rw [stepRoom_statusTick_inactive uid s hact resp]
          exact ⟨h1, h2, h3, h4, h5⟩
      | true =>
          cases resp with
          | ok data =>
              rw [stepRoom_statusTick_ok uid s data hact]
              refine ⟨h1, ?_, h3, h4, h5⟩
              intro hseg
              have hst : (data.status == "in_progress") = true := hseg
              exact ⟨h1 ▸ hact, data, rfl, eq_of_beq hst⟩
          | httpError =>
              rw [(stepRoom_statusTick_fail uid s hact).1]
              exact ⟨h1, h2, h3, h4, h5⟩
          | netError =>
              rw [(stepRoom_statusTick_fail uid s hact).2]
              exact ⟨h1, h2, h3, h4, h5⟩
  | segmentsTick resp =>
      cases hact : s.segmentsIntervalActive with
      | false =>
          rw [stepRoom_segmentsTick_inactive uid s hact resp]
          exact ⟨h1, h2, h3, h4, h5⟩
      | true =>
          cases resp with
          | ok segments =>
              rw [stepRoom_segmentsTick_ok uid s segments hact]
              refine ⟨h1, h2, h3, h4, ?_⟩
              intro seg hseg
              have hseg' : seg ∈ segments.filter (fun g => g.player_id != uid) := hseg
              have := (List.mem_filter.mp hseg').2
              simpa using this
          | httpError =>
              rw [(stepRoom_segmentsTick_fail uid s hact).1]
              exact ⟨h1, h2, h3, h4, h5⟩
          | netError =>
              rw [(stepRoom_segmentsTick_fail uid s hact).2]
              exact ⟨h1, h2, h3, h4, h5⟩
  | navTimeout =>
      cases hm : s.mounted with
      | true =>
          rcases Nat.eq_zero_or_pos s.pendingNavs with hp | hp
          · rw [stepRoom_navTimeout_none uid s hp]
            exact ⟨h1, h2, h3, h4, h5⟩
          · rw [stepRoom_navTimeout_mounted uid s hp hm]
            refine ⟨rfl, ?_, ?_, ?_, h5⟩
            · intro hseg; exact (Bool.false_ne_true hseg).elim
            · intro hmm; exact (Bool.false_ne_true hmm).elim
            · have h0 : s.navigations = 0 := h3 hm
              show s.navigations + 1 ≤ 1
              omega
      | false =>
          rcases Nat.eq_zero_or_pos s.pendingNavs with hp | hp
          · rw [stepRoom_navTimeout_none uid s hp]
            exact ⟨h1, h2, h3, h4, h5⟩
          · rw [stepRoom_navTimeout_unmounted uid s hp hm]
            exact ⟨h1, h2, h3, h4, h5⟩
  | pressJudge =>
      cases hpj : judgePressable uid s with
      | true =>
          rw [stepRoom_pressJudge_enabled uid s hpj]
          exact ⟨h1, h2, h3, h4, h5⟩
      | false =>
          rw [stepRoom_pressJudge_disabled uid s hpj]
          exact ⟨h1, h2, h3, h4, h5⟩
  | judgeResponse resp =>
      rw [stepRoom_judgeResponse uid s resp]
      split
      · exact ⟨h1, h2, h3, h4, h5⟩
      · exact ⟨h1, h2, h3, h4, h5⟩
  | unmount =>
      rw [stepRoom_unmount uid s]
      refine ⟨rfl, ?_, ?_, h4, h5⟩
      · intro hseg; exact (Bool.false_ne_true hseg).elim
      · intro hmm; exact (Bool.false_ne_true hmm).elim

theorem roomInv_run (uid : String) (es : List RoomEvent) :
    RoomInv uid (runRoom uid es) := by
  have key : ∀ s, RoomInv uid s → RoomInv uid (es.foldl (stepRoom uid) s) := by
    induction es with
    | nil => intro s hs; exact hs
    | cons e rest ih => intro s hs; exact ih _ (roomInv_step uid s e hs)
  exact key _ (roomInv_init uid)

/-- Invariant of the lobby machine: the battles-poll interval is live
exactly while the screen is mounted. -/
def LobbyInv (s : LobbyState) : Prop :=
  s.pollIntervalActive = s.mounted

theorem lobbyInv_step (s : LobbyState) (e : LobbyEvent)
    (h : LobbyInv s) : LobbyInv (stepLobby s e) := by
  cases e with
  | tick resp =>
      cases hact : s.pollIntervalActive with
      | false =>
          rw [stepLobby_tick_inactive s hact resp]
          exact h
      | true =>
          cases resp with
          | ok data => rw [stepLobby_tick_ok s data hact]; exact h
          | httpError => rw [(stepLobby_tick_fail s hact).1]; exact h
          | netError => rw [(stepLobby_tick_fail s hact).2]; exact h
  | unmount => exact rfl

theorem lobbyInv_run (es : List LobbyEvent) : LobbyInv (runLobby es) := by
  have key : ∀ s, LobbyInv s → LobbyInv (es.foldl stepLobby s) := by
    induction es with
    | nil => intro s hs; exact hs
    | cons e rest ih => intro s hs; exact ih _ (lobbyInv_step s e hs)
  exact key _ rfl

/-! ### Claim theorems -/

/-- C8: the theme store satisfies `theme = (isDark ? darkTheme : lightTheme)`
initially and after each of `toggleTheme` and `setTheme`, and on any state
satisfying that invariant (i.e. any state the store can actually hold)
`toggleTheme` is an involution: applying it twice restores the original
`(isDark, theme)` pair. -/
theorem theme_store_invariant_and_involution :
    themeInvariant initialThemeState ∧
    (∀ s : ThemeState, themeInvariant (toggleTheme s)) ∧
    (∀ (b : Bool) (s : ThemeState), themeInvariant (setTheme b s)) ∧
    (∀ s : ThemeState, themeInvariant s → toggleTheme (toggleTheme s) = s) := by
  refine ⟨rfl, fun s => rfl, fun b s => rfl, ?_⟩
  intro s hs
  obtain ⟨d, t⟩ := s
  unfold themeInvariant at hs
  cases d <;> simp only [] at hs <;> simp [hs] <;> rfl

theorem theme_store_invariant_and_involution_witness :
    toggleTheme (toggleTheme initialThemeState) = initialThemeState :=
  theme_store_invariant_and_involution.2.2.2 initialThemeState rfl

/-- Auth state with a persisted token and an empty in-memory store, as
found on app start before `loadToken` has run. -/
def authPersisted : AuthState :=
  { storageToken := some "tok", token := none, user := none, isLoading := true }

/-- C7 counterexample: when the `/auth/me` verification request throws (a
network error), `loadToken` neither restores the persisted token into the
auth state nor removes it from storage — it only clears `isLoading` — so
the claim that a token is otherwise removed from storage and the auth
state cleared is false on this input. -/
theorem loadToken_network_error_keeps_stored_token :
    (loadToken authPersisted .netError).token = none ∧
    (loadToken authPersisted .netError).storageToken = some "tok" ∧
    (loadToken authPersisted .netError).storageToken ≠ none := by
  refine ⟨rfl, rfl, by decide⟩

/-- C7 (amended): a successful login or register stores the returned
access token both in AsyncStorage and in the in-memory state together
with the user; a failed login or register throws and changes nothing.
`loadToken` restores a persisted token only when `/auth/me` verifies it;
when `/auth/me` answers non-OK it removes the token from storage and
clears the auth state; when the verification request itself throws, the
stored token is left in storage and the state is unchanged apart from
`isLoading`; with no persisted token only `isLoading` is cleared. -/
theorem auth_token_lifecycle :
    (∀ (s : AuthState) (tok : String) (u : AuthUser),
      login s (.ok tok u) =
        ({ s with storageToken := some tok, token := some tok, user := some u },
         .success)) ∧
    (∀ s : AuthState,
      login s .httpError = (s, .threw) ∧ login s .netError = (s, .threw)) ∧
    (∀ (s : AuthState) (tok : String) (u : AuthUser),
      register s (.ok tok u) =
        ({ s with storageToken := some tok, token := some tok, user := some u },
         .success)) ∧
    (∀ s : AuthState,
      register s .httpError = (s, .threw) ∧ register s .netError = (s, .threw)) ∧
    (∀ (tk : Option String) (us : Option AuthUser) (l : Bool) (tok : String) (u : AuthUser),
      loadToken ⟨some tok, tk, us, l⟩ (.ok u) = ⟨some tok, some tok, some u, false⟩) ∧
    (∀ (tk : Option String) (us : Option AuthUser) (l : Bool) (tok : String),
      loadToken ⟨some tok, tk, us, l⟩ .httpError = ⟨none, none, none, false⟩) ∧
    (∀ (tk : Option String) (us : Option AuthUser) (l : Bool) (tok : String),
      loadToken ⟨some tok, tk, us, l⟩ .netError = ⟨some tok, tk, us, false⟩) ∧
    (∀ (tk : Option String) (us : Option AuthUser) (l : Bool) (r : FetchResult AuthUser),
      loadToken ⟨none, tk, us, l⟩ r = ⟨none, tk, us, false⟩) := by
  refine ⟨fun s tok u => rfl, fun s => ⟨rfl, rfl⟩, fun s tok u => rfl,
    fun s => ⟨rfl, rfl⟩, fun tk us l tok u => rfl, fun tk us l tok => rfl,
    fun tk us l tok => rfl, fun tk us l r => ?_⟩
  cases r <;> rfl

theorem segRecordComplete_eq (r : SegmentRecord) :
    (((segValues (some r)).filter id).length == 3) =
      (r.opening && r.rebuttal && r.closing) := by
  obtain ⟨a, b, c⟩ := r
  cases a <;> cases b <;> cases c <;> rfl

theorem allTrue_iff_bool (r : SegmentRecord) :
    (r.opening && r.rebuttal && r.closing) = true ↔ allTrue r := by
  obtain ⟨a, b, c⟩ := r
  simp [allTrue, and_assoc]

/-- C3: the Request AI Judgment button is rendered (and the segment input
card hidden, being rendered exactly under the negation) precisely when a
second player is present and both players' segment records mark all three
of opening, rebuttal and closing as submitted — for any viewing user. -/
theorem judge_button_iff_all_segments_submitted (st : BattleStatusData) (uid : String) :
    (judgeButtonRendered st uid = true ↔
      ∃ p2, st.player2 = some p2 ∧ allTrue st.player1.segments ∧ allTrue p2.segments) ∧
    inputCardRendered st uid = !judgeButtonRendered st uid := by
  refine ⟨?_, rfl⟩
  unfold judgeButtonRendered allSegmentsComplete mySegments opponentSegments
  by_cases hid : uid = st.player1.id
  · rw [if_pos hid, if_pos hid]
    cases hp2 : st.player2 with
    | none => simp [segValues]
    | some p2 =>
        simp only [Option.map_some']
        rw [segRecordComplete_eq, segRecordComplete_eq, Bool.and_eq_true,
          allTrue_iff_bool, allTrue_iff_bool]
        simp
  · rw [if_neg hid, if_neg hid]
    cases hp2 : st.player2 with
    | none => simp [segValues]
    | some p2 =>
        simp only [Option.map_some']
        rw [segRecordComplete_eq, segRecordComplete_eq, Bool.and_eq_true,
          allTrue_iff_bool, allTrue_iff_bool]
        simp only [Option.some.injEq]
        constructor
        · rintro ⟨hb, ha⟩
          exact ⟨p2, rfl, ha, hb⟩
        · rintro ⟨p2', hp, ha, hb⟩
          cases hp
          exact ⟨hb, ha⟩

theorem nav_after_completed (uid : String) (s : RoomState) (data : BattleStatusData)
    (hm : s.mounted = true) (hnav : s.navigations = 0) (hcs : data.status = "completed")
    (hj : data.judgment.isSome = true) (hact : s.statusIntervalActive = true) :
    (stepRoom uid (stepRoom uid s (.statusTick (.ok data))) .navTimeout).navigations = 1 := by
  have hstep := stepRoom_statusTick_ok uid s data hact
  have hm1 : (stepRoom uid s (.statusTick (.ok data))).mounted = true := by
    rw [hstep]; exact hm
  have hnav1 : (stepRoom uid s (.statusTick (.ok data))).navigations = 0 := by
    rw [hstep]; exact hnav
  have hp1 : 0 < (stepRoom uid s (.statusTick (.ok data))).pendingNavs := by
    rw [hstep]
    simp [hcs, hj, hm]
  rw [stepRoom_navTimeout_mounted uid _ hp1 hm1]
  show (stepRoom uid s (.statusTick (.ok data))).navigations + 1 = 1
  rw [hnav1]

/-- C1: per battle-room screen instance, at most one results navigation
is ever performed no matter how the polling ticks interleave; firing the
scheduled navigation while unmounted (the mounted-flag guard) changes
nothing; and from any reachable mounted state, observing
`status == completed` with a non-null judgment and then running the
scheduled timeout performs exactly one navigation. -/
theorem battle_room_navigation_exactly_once (uid : String) (es : List RoomEvent) :
    (runRoom uid es).navigations ≤ 1 ∧
    (∀ s : RoomState, s.mounted = false →
      (stepRoom uid s .navTimeout).navigations = s.navigations) ∧
    (∀ data : BattleStatusData,
      (runRoom uid es).mounted = true → data.status = "completed" →
      data.judgment.isSome = true →
      (stepRoom uid (stepRoom uid (runRoom uid es) (.statusTick (.ok data)))
        .navTimeout).navigations = 1) := by
  obtain ⟨h1, h2, h3, h4, h5⟩ := roomInv_run uid es
  refine ⟨h4, ?_, ?_⟩
  · intro s hm
    rcases Nat.eq_zero_or_pos s.pendingNavs with hp | hp
    · rw [stepRoom_navTimeout_none uid s hp]
    · rw [stepRoom_navTimeout_unmounted uid s hp hm]
  · intro data hm hcs hj
    exact nav_after_completed uid (runRoom uid es) data hm (h3 hm) hcs hj (h1.trans hm)

theorem battle_room_navigation_exactly_once_witness :
    (stepRoom "u1" (stepRoom "u1" (runRoom "u1" []) (.statusTick (.ok completedStatus)))
      .navTimeout).navigations = 1 ∧
    (stepRoom "u1" { initialRoomState with mounted := false } .navTimeout).navigations =
      ({ initialRoomState with mounted := false } : RoomState).navigations := by
  constructor
  · exact (battle_room_navigation_exactly_once "u1" []).2.2 completedStatus rfl rfl rfl
  · exact (battle_room_navigation_exactly_once "u1" []).2.1 _ rfl

/-- Event trace in which the user presses the judge button, the request
succeeds (re-enabling the button through the `finally`), and the user
presses again before the 2-second status poll has observed the completed
battle. -/
def judgeTwiceEvents : List RoomEvent :=
  [.statusTick (.ok readyStatus), .pressJudge, .judgeResponse (.ok ()), .pressJudge]

/-- C2 counterexample: on this trace the client issues two POST
`/battle/id/judge` requests for the same battle, the second after the
first succeeded — the `finally` clears `isJudging` on success and nothing
else disables the still-rendered button until polling navigates away, so
the claim that no second request can be issued after one succeeds is
false. -/
theorem judge_request_reissued_after_success :
    (runRoom "u1" judgeTwiceEvents).judgeRequests = 2 := by
  decide

/-- C2 (amended): the client never has two judge requests in flight at
once — while `isJudging` is set a press is a no-op, and the request
counter only ever rises at a press that flips `isJudging` from false to
true.  (Exactly-once per battle is not enforced client-side: after a
response clears `isJudging`, a further press issues a new request.) -/
theorem judge_request_single_flight (uid : String) (s : RoomState) :
    (s.isJudging = true → stepRoom uid s .pressJudge = s) ∧
    (∀ e : RoomEvent,
      (stepRoom uid s e).judgeRequests ≠ s.judgeRequests →
      e = .pressJudge ∧ s.isJudging = false ∧ (stepRoom uid s e).isJudging = true) := by
  constructor
  · intro hj
    apply stepRoom_pressJudge_disabled
    simp [judgePressable, hj]
  · intro e hne
    cases e with
    | statusTick resp =>
        exfalso; apply hne
        cases hact : s.statusIntervalActive with
        | false => rw [stepRoom_statusTick_inactive uid s hact resp]
        | true =>
            cases resp with
            | ok data => rw [stepRoom_statusTick_ok uid s data hact]
            | httpError => rw [(stepRoom_statusTick_fail uid s hact).1]
            | netError => rw [(stepRoom_statusTick_fail uid s hact).2]
    | segmentsTick resp =>
        exfalso; apply hne
        cases hact : s.segmentsIntervalActive with
        | false => rw [stepRoom_segmentsTick_inactive uid s hact resp]
        | true =>
            cases resp with
            | ok segments => rw [stepRoom_segmentsTick_ok uid s segments hact]
            | httpError => rw [(stepRoom_segmentsTick_fail uid s hact).1]
            | netError => rw [(stepRoom_segmentsTick_fail uid s hact).2]
    | navTimeout =>
        exfalso; apply hne
        cases hm : s.mounted with
        | true =>
            rcases Nat.eq_zero_or_pos s.pendingNavs with hp | hp
            · rw [stepRoom_navTimeout_none uid s hp]
            · rw [stepRoom_navTimeout_mounted uid s hp hm]
        | false =>
            rcases Nat.eq_zero_or_pos s.pendingNavs with hp | hp
            · rw [stepRoom_navTimeout_none uid s hp]
            · rw [stepRoom_navTimeout_unmounted uid s hp hm]
    | pressJudge =>
        cases hpj : judgePressable uid s with
        | false =>
            exfalso; apply hne
            rw [stepRoom_pressJudge_disabled uid s hpj]
        | true =>
            refine ⟨rfl, ?_, ?_⟩
            · cases hb : s.isJudging
              · rfl
              · exfalso
                have hfalse : judgePressable uid s = false := by
                  simp [judgePressable, hb]
                rw [hfalse] at hpj
                exact Bool.false_ne_true hpj
            · rw [stepRoom_pressJudge_enabled uid s hpj]
    | judgeResponse resp =>
        exfalso; apply hne
        rw [stepRoom_judgeResponse uid s resp]
        split <;> rfl
    | unmount =>
        exfalso; apply hne
        rw [stepRoom_unmount uid s]

theorem judge_request_single_flight_witness :
    (stepRoom "u1" { initialRoomState with isJudging := true } .pressJudge =
      { initialRoomState with isJudging := true }) ∧
    (RoomEvent.pressJudge = RoomEvent.pressJudge ∧
      (runRoom "u1" [.statusTick (.ok readyStatus)]).isJudging = false ∧
      (stepRoom "u1" (runRoom "u1" [.statusTick (.ok readyStatus)]) .pressJudge).isJudging =
        true) := by
  constructor
  · exact (judge_request_single_flight "u1" _).1 rfl
  · exact (judge_request_single_flight "u1" _).2 .pressJudge (by decide)

/-- C4 counterexample: after a single poll observing an `open` battle the
stored status is not `in_progress`, yet the 2-second status-poll
interval is still live — the status endpoint is polled regardless of the
battle's status, so the claim that both endpoints are polled only while
`in_progress` is false. -/
theorem status_poll_active_outside_in_progress :
    (runRoom "u1" [.statusTick (.ok openStatus)]).battleStatus = some openStatus ∧
    openStatus.status ≠ "in_progress" ∧
    (runRoom "u1" [.statusTick (.ok openStatus)]).statusIntervalActive = true := by
  exact ⟨rfl, by decide, rfl⟩

/-- C4 (amended): the battle room polls the status endpoint every 2
seconds for as long as the screen is mounted, regardless of the battle's
status, and polls the segment-list endpoint every 3 seconds only while
the stored status is `in_progress`. -/
theorem polling_intervals_amended (uid : String) (es : List RoomEvent) :
    statusPollIntervalMs = 2000 ∧ segmentsPollIntervalMs = 3000 ∧
    (runRoom uid es).statusIntervalActive = (runRoom uid es).mounted ∧
    ((runRoom uid es).segmentsIntervalActive = true →
      (runRoom uid es).mounted = true ∧
      ∃ st, (runRoom uid es).battleStatus = some st ∧ st.status = "in_progress") := by
  obtain ⟨h1, h2, h3, h4, h5⟩ := roomInv_run uid es
  exact ⟨rfl, rfl, h1, h2⟩

theorem polling_intervals_amended_witness :
    (runRoom "u1" [.statusTick (.ok readyStatus)]).mounted = true ∧
    ∃ st, (runRoom "u1" [.statusTick (.ok readyStatus)]).battleStatus = some st ∧
      st.status = "in_progress" :=
  (polling_intervals_amended "u1" [.statusTick (.ok readyStatus)]).2.2.2 rfl

/-- C5: unmounting a polling screen does exactly the effect cleanups —
clearing the interval flags and the mounted flag and nothing else — and
once a screen is unmounted every later polling tick, whatever its fetch
outcome, leaves the entire screen state unchanged (no further state
updates fire), for both the battle room and the battle lobby. -/
theorem unmount_clears_polling (uid : String) (es : List RoomEvent) (ls : List LobbyEvent) :
    (∀ s : RoomState, stepRoom uid s .unmount =
      { s with mounted := false, statusIntervalActive := false, segmentsIntervalActive := false }) ∧
    ((runRoom uid es).mounted = false →
      ∀ (r1 : FetchResult BattleStatusData) (r2 : FetchResult (List SegmentData)),
        stepRoom uid (runRoom uid es) (.statusTick r1) = runRoom uid es ∧
        stepRoom uid (runRoom uid es) (.segmentsTick r2) = runRoom uid es) ∧
    (∀ s : LobbyState, stepLobby s .unmount =
      { s with mounted := false, pollIntervalActive := false }) ∧
    ((runLobby ls).mounted = false →
      ∀ r : FetchResult (List BattleListing),
        stepLobby (runLobby ls) (.tick r) = runLobby ls) := by
  obtain ⟨h1, h2, h3, h4, h5⟩ := roomInv_run uid es
  have hl : (runLobby ls).pollIntervalActive = (runLobby ls).mounted := lobbyInv_run ls
  refine ⟨stepRoom_unmount uid, ?_, stepLobby_unmount, ?_⟩
  · intro hm r1 r2
    have hact : (runRoom uid es).statusIntervalActive = false := by rw [h1, hm]
    have hseg : (runRoom uid es).segmentsIntervalActive = false := by
      cases hb : (runRoom uid es).segmentsIntervalActive
      · rfl
      · exfalso
        have hmt := (h2 hb).1
        rw [hm] at hmt
        exact Bool.false_ne_true hmt
    exact ⟨stepRoom_statusTick_inactive uid _ hact r1,
           stepRoom_segmentsTick_inactive uid _ hseg r2⟩
  · intro hm r
    have hact : (runLobby ls).pollIntervalActive = false := by rw [hl, hm]
    exact stepLobby_tick_inactive _ hact r

theorem unmount_clears_polling_witness :
    (stepRoom "u1" (runRoom "u1" [.unmount]) (.statusTick .httpError) =
        runRoom "u1" [.unmount] ∧
      stepRoom "u1" (runRoom "u1" [.unmount]) (.segmentsTick .httpError) =
        runRoom "u1" [.unmount]) ∧
    stepLobby (runLobby [.unmount]) (.tick .httpError) = runLobby [.unmount] := by
  constructor
  · exact (unmount_clears_polling "u1" [.unmount] [.unmount]).2.1 rfl .httpError .httpError
  · exact (unmount_clears_polling "u1" [.unmount] [.unmount]).2.2.2 rfl .httpError

/-- C6: a polling tick whose fetch throws or answers non-OK leaves the
previously stored battle state untouched — `battleStatus` and the
transcripts in the room, the `battles` list in the lobby — and leaves the
interval live, so the next tick simply re-polls. -/
theorem poll_failure_leaves_state (uid : String) (s : RoomState) (t : LobbyState) :
    ((stepRoom uid s (.statusTick .httpError)).battleStatus = s.battleStatus ∧
     (stepRoom uid s (.statusTick .netError)).battleStatus = s.battleStatus ∧
     (stepRoom uid s (.statusTick .httpError)).statusIntervalActive = s.statusIntervalActive ∧
     (stepRoom uid s (.statusTick .netError)).statusIntervalActive = s.statusIntervalActive) ∧
    ((stepRoom uid s (.segmentsTick .httpError)).opponentTranscripts = s.opponentTranscripts ∧
     (stepRoom uid s (.segmentsTick .netError)).opponentTranscripts = s.opponentTranscripts) ∧
    ((stepLobby t (.tick .httpError)).battles = t.battles ∧
     (stepLobby t (.tick .netError)).battles = t.battles ∧
     (stepLobby t (.tick .httpError)).pollIntervalActive = t.pollIntervalActive ∧
     (stepLobby t (.tick .netError)).pollIntervalActive = t.pollIntervalActive) := by
  refine ⟨⟨?_, ?_, ?_, ?_⟩, ⟨?_, ?_⟩, ⟨?_, ?_, ?_, ?_⟩⟩
  all_goals first
    | (simp only [stepRoom]; split <;> rfl)
    | (simp only [stepLobby]; split <;> rfl)

/-- C9: the opponent-transcripts list stored by the battle room never
contains a segment whose `player_id` is the current user's id — every
stored list has passed the `fetchOpponentSegments` filter. -/
theorem opponent_transcripts_exclude_self (uid : String) (es : List RoomEvent)
    (seg : SegmentData) (h : seg ∈ (runRoom uid es).opponentTranscripts) :
    seg.player_id ≠ uid :=
  (roomInv_run uid es).2.2.2.2 seg h

/-- A segment authored by the opponent, as stored after filtering. -/
def oppSegSample : SegmentData :=
  { kind := .opening, transcript := "x", player_id := "u2" }

/-- A trace that stores a filtered transcript list in the battle room. -/
def transcriptEvents : List RoomEvent :=
  [.statusTick (.ok readyStatus),
   .segmentsTick (.ok [oppSegSample, { kind := .opening, transcript := "y", player_id := "u1" }])]

theorem opponent_transcripts_exclude_self_witness :
    oppSegSample.player_id ≠ "u1" :=
  opponent_transcripts_exclude_self "u1" transcriptEvents oppSegSample (by decide)

theorem handleRegister_eq (f : RegisterForm) :
    handleRegister f =
      if f.username.trim = "" ∨ f.email.trim = "" ∨ f.password.trim = "" then
        .alertError "Please fill in all fields"
      else if f.password ≠ f.confirmPassword then
        .alertError "Passwords do not match"
      else if f.password.length < 6 then
        .alertError "Password must be at least 6 characters"
      else if emailRegexTest f.email = false then
        .alertError "Please enter a valid email address"
      else
        .submit f.username f.email f.password := by
  unfold handleRegister
  simp only [Bool.or_eq_true, decide_eq_true_eq, bne_iff_ne, Bool.not_eq_true',
    or_assoc]

/-- C10: `handleRegister` reaches the network call exactly when every
check passes — no blank username, email or password, matching passwords,
a password of at least 6 characters, and an email passing the format
check — and whenever any field is blank (a blank confirmation is caught
by the mismatch check), the passwords differ, the password is short or
the email is malformed, it surfaces an alert and performs no request. -/
theorem register_validation_gate (f : RegisterForm) :
    (handleRegister f = .submit f.username f.email f.password ↔
      (f.username.trim ≠ "" ∧ f.email.trim ≠ "" ∧ f.password.trim ≠ "" ∧
       f.password = f.confirmPassword ∧ 6 ≤ f.password.length ∧
       emailRegexTest f.email = true)) ∧
    ((f.username.trim = "" ∨ f.email.trim = "" ∨ f.password.trim = "" ∨
      f.confirmPassword.trim = "" ∨ f.password ≠ f.confirmPassword ∨
      f.password.length < 6 ∨ emailRegexTest f.email = false) →
      ∃ msg, handleRegister f = .alertError msg) := by
  rw [handleRegister_eq f]
  constructor
  · split_ifs with h1 h2 h3 h4
    · refine iff_of_false (fun h => by cases h) ?_
      rintro ⟨c1, c2, c3, -⟩
      rcases h1 with h | h | h
      exacts [c1 h, c2 h, c3 h]
    · exact iff_of_false (fun h => by cases h) (fun hc => h2 hc.2.2.2.1)
    · exact iff_of_false (fun h => by cases h)
        (fun hc => absurd hc.2.2.2.2.1 (by omega))
    · refine iff_of_false (fun h => by cases h) ?_
      intro hc
      rw [hc.2.2.2.2.2] at h4
      exact absurd h4 (by simp)
    · push_neg at h1
      have hpc : f.password = f.confirmPassword := not_ne_iff.mp h2
      have hlen : 6 ≤ f.password.length := Nat.le_of_not_lt h3
      have hreg : emailRegexTest f.email = true := by
        cases hb : emailRegexTest f.email
        · exact absurd hb h4
        · rfl
      exact iff_of_true rfl ⟨h1.1, h1.2.1, h1.2.2, hpc, hlen, hreg⟩
  · intro hbad
    split_ifs with h1 h2 h3 h4
    · exact ⟨_, rfl⟩
    · exact ⟨_, rfl⟩
    · exact ⟨_, rfl⟩
    · exact ⟨_, rfl⟩
    · exfalso
      push_neg at h1
      have hpc : f.password = f.confirmPassword := not_ne_iff.mp h2
      rcases hbad with h | h | h | h | h | h | h
      · exact h1.1 h
      · exact h1.2.1 h
      · exact h1.2.2 h
      · exact h1.2.2 (by rw [hpc]; exact h)
      · exact h hpc
      · exact h3 h
      · exact h4 h

/-- A form with a 3-character password, which must fail the length
check. -/
def shortPasswordForm : RegisterForm :=
  { username := "x", email := "a@b.c", password := "abc", confirmPassword := "abc" }

theorem register_validation_gate_witness :
    ∃ msg, handleRegister shortPasswordForm = .alertError msg :=
  (register_validation_gate shortPasswordForm).2
    (Or.inr (Or.inr (Or.inr (Or.inr (Or.inr (Or.inl (by decide)))))))
